import Mathlib

/-!
Verification of the NFS-e OCR pipeline (`src/app.py`).

The pipeline's pure core is embedded shallowly:

* `corrigir_formatacao` — the three ordered regex substitution rules
  (CNPJ, date, currency) of `app.py` lines 89-104, over a small
  backtracking regex engine (`matchRe`, `reSub`) that mirrors Python's
  `re` semantics for exactly the constructs those patterns use
  (greedy quantifiers, prioritized alternation, leftmost match,
  capture groups, `IGNORECASE` on ASCII letters).  The currency rule's
  numeric re-render (`float` parse, `:,.2f` format, separator swap)
  is modelled exactly over natural numbers; Python's `float` rounding
  (binary, round-half-even) is modelled as exact decimal arithmetic
  with round-half-up, which agrees on every value appearing in this
  development (all are exact multiples of one cent).  A capture whose
  body `float()` cannot parse (internal space, several dots) makes the
  rule fail, exactly as the un-handled `ValueError` does in Python.
* `validar_conteudo` — the three required-field detectors of lines
  106-144, each an ordered list of alternative patterns searched with
  `IGNORECASE` (`re.MULTILINE` is irrelevant: no pattern uses anchors,
  and `.` still excludes the newline).
* `processar_imagem` — the OCR-config fallback loop of lines 53-77,
  with the external Tesseract engine abstracted as an oracle from the
  config string to `Except`; an exception becomes `.error`.
* `processar_documento` — the orchestrator of lines 146-204, with the
  external rasterizer + OCR front half abstracted as an oracle giving
  either a rasterization failure or the per-page recognized texts in
  PDF page order; the outer `try/except` maps any propagated error to
  the `"ERRO CRÍTICO: "` string.
* `frontend_erro` — the front end's classification of a result by the
  `"ERRO"` prefix (`main`, line 224).

Case folding uses `Char.toLower`, which lowers only ASCII letters;
Python's `IGNORECASE` also folds accented letters, but no statement
below depends on a non-ASCII case pair.
-/

namespace NfseOcr

/-- Python whitespace, the class matched by `\s` and stripped by `str.strip()`. -/
def isSpaceB (c : Char) : Bool :=
  c == ' ' || c == '\t' || c == '\n' || c == '\r' || c == '\x0b' || c == '\x0c'

/-- Character classes occurring in the patterns of `app.py`. -/
inductive CharClass where
  | digit                       -- \d
  | nonDigit                    -- \D
  | space                       -- \s
  | anyNoNl                     -- .   (no DOTALL: everything but newline)
  | oneOf (cs : List Char)      -- [...] of plain characters
  | spaceOr (cs : List Char)    -- [\s...]
deriving Repr

def CharClass.mem : CharClass → Char → Bool
  | .digit, c => c.isDigit
  | .nonDigit, c => !c.isDigit
  | .space, c => isSpaceB c
  | .anyNoNl, c => c != '\n'
  | .oneOf l, c => l.contains c
  | .spaceOr l, c => isSpaceB c || l.contains c

/-- Regular expressions, covering the constructs used by `app.py`. -/
inductive RE where
  | eps
  | lit (c : Char)
  | cls (k : CharClass)
  | seq (a b : RE)
  | alt (a b : RE)
  | star (a : RE)               -- greedy zero-or-more
  | group (i : Nat) (a : RE)    -- capturing group number i
deriving Repr

/-- Captured groups: most recent binding first. -/
abbrev Caps := List (Nat × List Char)

def capLookup (i : Nat) : Caps → Option (List Char)
  | [] => none
  | (j, v) :: g => if j = i then some v else capLookup i g

def catMap (f : α → List β) : List α → List β
  | [] => []
  | a :: l => f a ++ catMap f l

/-- Greedy iteration for `star`: continue with the body (in the body's own
priority order) while it consumes at least one character, and offer the
empty iteration last.  Every `star` body in `app.py`'s patterns consumes
at least one character, so the progress guard never discards a Python
match; fuel `length + 1` therefore never runs out. -/
def starLoop (f : List Char → Caps → List (List Char × Caps)) :
    Nat → List Char → Caps → List (List Char × Caps)
  | 0, cs, g => [(cs, g)]
  | fuel + 1, cs, g =>
      catMap
        (fun p =>
          if p.1.length < cs.length then starLoop f fuel p.1 p.2 else [])
        (f cs g) ++ [(cs, g)]

/-- Backtracking matcher: all ways to match a prefix of `cs`, as
`(remaining suffix, captures)`, in the priority order of Python's `re`
engine (alternatives left to right, quantifiers greedy).  Literals are
compared case-insensitively (`IGNORECASE` is set on every `re` call in
`app.py`). -/
def matchRe : RE → List Char → Caps → List (List Char × Caps)
  | .eps, cs, g => [(cs, g)]
  | .lit c, cs, g =>
      match cs with
      | [] => []
      | d :: cs' => if c.toLower == d.toLower then [(cs', g)] else []
  | .cls k, cs, g =>
      match cs with
      | [] => []
      | d :: cs' => if k.mem d then [(cs', g)] else []
  | .seq a b, cs, g => catMap (fun p => matchRe b p.1 p.2) (matchRe a cs g)
  | .alt a b, cs, g => matchRe a cs g ++ matchRe b cs g
  | .star a, cs, g => starLoop (matchRe a) (cs.length + 1) cs g
  | .group i a, cs, g =>
      (matchRe a cs g).map
        (fun p => (p.1, (i, cs.take (cs.length - p.1.length)) :: p.2))

/-- `re.search`: does the pattern match starting at some position? -/
def reSearch (re : RE) : List Char → Bool
  | [] => !(matchRe re [] []).isEmpty
  | c :: cs => !(matchRe re (c :: cs) []).isEmpty || reSearch re cs

/-- One `re.sub` pass: find the leftmost match (taking the engine's
preferred candidate), replace it, continue after it.  The replacement
may fail (`ValueError` inside a replacement lambda propagates, as in
Python).  An empty match is replaced and the scan advances one
character; no pattern in `app.py` can match empty, so that branch is
unreachable.  Fuel `length + 1` suffices because every step consumes at
least one input character. -/
def reSubFuel (re : RE) (repl : List Char → Caps → Except String (List Char)) :
    Nat → List Char → Except String (List Char)
  | 0, cs => .ok cs
  | fuel + 1, cs =>
      match (matchRe re cs []).head? with
      | some p =>
          let consumed := cs.take (cs.length - p.1.length)
          match repl consumed p.2 with
          | .error e => .error e
          | .ok r =>
              if consumed.isEmpty then
                match cs with
                | [] => .ok r
                | c :: cs' =>
                    match reSubFuel re repl fuel cs' with
                    | .error e => .error e
                    | .ok rest => .ok (r ++ c :: rest)
              else
                match reSubFuel re repl fuel p.1 with
                | .error e => .error e
                | .ok rest => .ok (r ++ rest)
      | none =>
          match cs with
          | [] => .ok []
          | c :: cs' =>
              match reSubFuel re repl fuel cs' with
              | .error e => .error e
              | .ok rest => .ok (c :: rest)

def reSub (re : RE) (repl : List Char → Caps → Except String (List Char))
    (cs : List Char) : Except String (List Char) :=
  reSubFuel re repl (cs.length + 1) cs

/-! Pattern combinators. -/

def rseq (l : List RE) : RE := l.foldr RE.seq RE.eps

def lits (s : String) : RE := rseq (s.data.map RE.lit)

/-- `e?` (greedy: try one occurrence first). -/
def optRe (a : RE) : RE := RE.alt a RE.eps

/-- `e+`. -/
def plusRe (a : RE) : RE := RE.seq a (RE.star a)

/-- `e{n}`. -/
def repN : Nat → RE → RE
  | 0, _ => RE.eps
  | n + 1, a => RE.seq a (repN n a)

/-- `e{0,n}`, greedy (more occurrences preferred). -/
def upTo : Nat → RE → RE
  | 0, _ => RE.eps
  | n + 1, a => optRe (RE.seq a (upTo n a))

/-- `e{m,n}`, greedy. -/
def repRange (m n : Nat) (a : RE) : RE := RE.seq (repN m a) (upTo (n - m) a)

def reDigit : RE := RE.cls .digit

def reWs : RE := RE.cls .space

/-! Numeric helpers for the currency rule's replacement lambda. -/

/-- Numeric value of a digit string. -/
def natVal (s : List Char) : Nat :=
  s.foldl (fun n c => n * 10 + (c.toNat - 48)) 0

/-- Python `float()` on the strings the currency lambda can produce
(digits, dots, spaces): `some (m, e)` denotes the exact value
`m / 10 ^ e`; `none` is a `ValueError` (empty string, internal space,
more than one dot). -/
def pyFloat (s : List Char) : Option (Nat × Nat) :=
  let a := s.takeWhile Char.isDigit
  match s.drop a.length with
  | [] => if a.isEmpty then none else some (natVal a, 0)
  | '.' :: b =>
      if b.all Char.isDigit && (!a.isEmpty || !b.isEmpty) then
        some (natVal (a ++ b), b.length)
      else none
  | _ => none

def natDigitsAux : Nat → Nat → List Char
  | 0, _ => []
  | fuel + 1, n =>
      if n < 10 then [Nat.digitChar n]
      else natDigitsAux fuel (n / 10) ++ [Nat.digitChar (n % 10)]

/-- Decimal digits of `n`, most significant first. -/
def natDigits (n : Nat) : List Char := natDigitsAux (n + 1) n

def groupRevAux : List Char → List Char
  | a :: b :: c :: d :: rest => a :: b :: c :: ',' :: groupRevAux (d :: rest)
  | l => l

/-- Insert `,` as thousands separator every three digits from the right,
as Python's `{:,}` format does. -/
def groupDigits (ds : List Char) : List Char := (groupRevAux ds.reverse).reverse

/-- `f"R$ {v:,.2f}"` for the value `cents / 100`. -/
def pyMoney (cents : Nat) : List Char :=
  "R$ ".data ++ groupDigits (natDigits (cents / 100)) ++
    ['.', Nat.digitChar (cents % 100 / 10), Nat.digitChar (cents % 100 % 10)]

/-- The chained `.replace(',','X').replace('.',',').replace('X','.')` of
the currency lambda: swap thousands and decimal separators. -/
def swapSeps (l : List Char) : List Char :=
  ((l.map fun c => if c = ',' then 'X' else c).map
      fun c => if c = '.' then ',' else c).map
    fun c => if c = 'X' then '.' else c

/-! The three correction rules of `corrigir_formatacao` (lines 89-104). -/

/-- CNPJ pattern `(\d{2})[\.]?(\d{3})[\.]?(\d{3})[/]?0001[-]?(\d{2})`. -/
def re_cnpj : RE :=
  rseq [RE.group 1 (repN 2 reDigit), optRe (RE.lit '.'),
        RE.group 2 (repN 3 reDigit), optRe (RE.lit '.'),
        RE.group 3 (repN 3 reDigit), optRe (RE.lit '/'),
        lits "0001", optRe (RE.lit '-'),
        RE.group 4 (repN 2 reDigit)]

def capOrNil (i : Nat) (g : Caps) : List Char := (capLookup i g).getD []

/-- Replacement template `\1.\2.\3/0001-\4`. -/
def repl_cnpj (_matched : List Char) (g : Caps) : Except String (List Char) :=
  .ok (capOrNil 1 g ++ '.' :: capOrNil 2 g ++ '.' :: capOrNil 3 g ++
       '/' :: '0' :: '0' :: '0' :: '1' :: '-' :: capOrNil 4 g)

/-- Date pattern `(\d{1,2})[\/\\\-_ ]+(\d{1,2})[\/\\\-_ ]+(\d{4})`.
The separator class holds a literal space, not `\s`. -/
def dateSep : RE := RE.cls (.oneOf ['/', '\\', '-', '_', ' '])

def re_data : RE :=
  rseq [RE.group 1 (repRange 1 2 reDigit), plusRe dateSep,
        RE.group 2 (repRange 1 2 reDigit), plusRe dateSep,
        RE.group 3 (repN 4 reDigit)]

/-- Replacement template `\1/\2/\3`. -/
def repl_data (_matched : List Char) (g : Caps) : Except String (List Char) :=
  .ok (capOrNil 1 g ++ '/' :: capOrNil 2 g ++ '/' :: capOrNil 3 g)

/-- Currency pattern
`R\s*[\$\*]?\s*(\d{1,3}(?:[.,\s]\d{3})*)(?:[.,](\d{2}))?`. -/
def re_moeda : RE :=
  rseq [RE.lit 'R', RE.star reWs, optRe (RE.cls (.oneOf ['$', '*'])),
        RE.star reWs,
        RE.group 1 (rseq [repRange 1 3 reDigit,
          RE.star (rseq [RE.cls (.spaceOr ['.', ',']), repN 3 reDigit])]),
        optRe (rseq [RE.cls (.oneOf ['.', ',']), RE.group 2 (repN 2 reDigit)])]

/-- The currency replacement lambda:
`float(g1.replace('.','').replace(',','.')) + (float(g2)/100 if g2 else 0)`,
rendered as `f"R$ {v:,.2f}"` with separators swapped afterwards.  A
value `float` cannot parse raises `ValueError` (here: `.error`), which
`re.sub` propagates. -/
def repl_moeda (_matched : List Char) (g : Caps) : Except String (List Char) :=
  let t := ((capOrNil 1 g).filter fun c => c ≠ '.').map
    fun c => if c = ',' then '.' else c
  match pyFloat t with
  | none => .error ("could not convert string to float: " ++ String.mk t)
  | some (m, e) =>
      let c := match capLookup 2 g with
        | some g2 => natVal g2
        | none => 0
      -- cents = floor(100 * (m / 10^e) + c + 1/2), in exact arithmetic
      let cents := (200 * m + (2 * c + 1) * 10 ^ e) / (2 * 10 ^ e)
      .ok (swapSeps (pyMoney cents))

/-- `corrigir_formatacao`: the three `re.sub` passes in order (CNPJ,
date, currency).  Python raises out of the function if a replacement
lambda raises; here that is the `.error` case. -/
def corrigir_formatacao (texto : String) : Except String String :=
  match reSub re_cnpj repl_cnpj texto.data with
  | .error e => .error e
  | .ok t1 =>
      match reSub re_data repl_data t1 with
      | .error e => .error e
      | .ok t2 =>
          match reSub re_moeda repl_moeda t2 with
          | .error e => .error e
          | .ok t3 => .ok (String.mk t3)

/-! The required-field detectors of `validar_conteudo` (lines 106-144). -/

def pat_nfse_longa : RE :=
  rseq [lits "NOTA", RE.star reWs, lits "FISCAL", RE.star reWs, lits "DE",
        RE.star reWs, lits "SERVIÇOS", RE.star reWs,
        RE.group 1 (RE.alt (lits "ELETRÔNICA") (lits "ELETRONICA"))]

def pat_nfse_sigla : RE :=
  rseq [lits "NFS", optRe (RE.cls (.spaceOr ['-', '_'])), RE.lit 'e']

def pat_nota_fiscal : RE := rseq [lits "NOTA", RE.star reWs, lits "FISCAL"]

def pat_cnpj_digitos : RE :=
  rseq [lits "40", optRe (RE.cls .nonDigit), lits "621",
        optRe (RE.cls .nonDigit), lits "411", RE.lit '/', lits "0001",
        optRe (RE.cls .nonDigit), lits "53"]

def pat_sustentamais : RE :=
  rseq [lits "SUSTENTAMAIS", RE.star reWs, lits "CONSULTORIA"]

def pat_cnpj_rotulado : RE :=
  rseq [lits "CNPJ", optRe (RE.lit ':'), RE.star reWs,
        lits "40.621.411/0001-53"]

def pat_valor_total : RE :=
  rseq [lits "VALOR", RE.star reWs, lits "TOTAL", RE.star (RE.cls .anyNoNl),
        RE.lit 'R', optRe (RE.lit '$'), RE.star reWs, lits "750",
        optRe (RE.cls (.oneOf [',', '.'])), lits "00"]

def pat_total_nota : RE :=
  rseq [lits "TOTAL", RE.star reWs, lits "DA", RE.star reWs, lits "NOTA",
        RE.star (RE.cls .anyNoNl), lits "750"]

def pat_750 : RE :=
  rseq [RE.lit 'R', RE.lit '$', RE.star reWs, lits "750",
        optRe (RE.cls (.oneOf [',', '.'])), lits "00"]

/-- `campos_validacao`: field name, alternative patterns, in source order. -/
def campos_validacao : List (String × List RE) :=
  [("NFS-e", [pat_nfse_longa, pat_nfse_sigla, pat_nota_fiscal]),
   ("CNPJ Prestador", [pat_cnpj_digitos, pat_sustentamais, pat_cnpj_rotulado]),
   ("Valor Total", [pat_valor_total, pat_total_nota, pat_750])]

/-- `validar_conteudo`: a field is missing when no alternative matches;
returns `(len(campos_faltantes) == 0, campos_faltantes)`. -/
def validar_conteudo (texto : String) : Bool × List String :=
  let faltantes :=
    (campos_validacao.filter fun cp =>
      !(cp.2.any fun p => reSearch p texto.data)).map (·.1)
  (faltantes.length == 0, faltantes)

/-! The OCR adapter `processar_imagem` (lines 53-77). -/

/-- The two Recognition Profiles of `configs_ocr`, in fallback order. -/
def configs_ocr : List String :=
  ["--oem 3 --psm 6 -l por+eng", "--oem 3 --psm 11 -l por+eng"]

/-- Truthiness of `texto.strip()`: some non-whitespace character. -/
def temTexto (t : String) : Bool := t.data.any fun c => !isSpaceB c

/-- Did one OCR attempt produce usable text?  (`.error` models a raised
Tesseract exception, which the loop logs and swallows.) -/
def sucessoOcr : Except String String → Bool
  | .ok t => temTexto t
  | .error _ => false

def tentarConfigs (engine : String → Except String String) :
    List String → String
  | [] => ""
  | c :: rest =>
      match engine c with
      | .ok t => if temTexto t then t else tentarConfigs engine rest
      | .error _ => tentarConfigs engine rest

/-- `processar_imagem`, with Tesseract abstracted as an oracle from the
config string to recognized text or a raised exception: try each config
in order, return the first text whose `strip()` is non-empty, and `""`
when no attempt yields one — including when every attempt raises. -/
def processar_imagem (engine : String → Except String String) : String :=
  tentarConfigs engine configs_ocr

/-! The orchestrator `processar_documento` (lines 146-204). -/

/-- Python's `sep.join(l)`. -/
def pyJoin (sep : String) : List String → String
  | [] => ""
  | [x] => x
  | x :: y :: t => x ++ sep ++ pyJoin sep (y :: t)

/-- Correct each page in order, stopping at the first raised error, as
the per-page loop of `processar_documento` does. -/
def mapCorrigir : List String → Except String (List String)
  | [] => .ok []
  | p :: ps =>
      match corrigir_formatacao p with
      | .error e => .error e
      | .ok c =>
          match mapCorrigir ps with
          | .error e => .error e
          | .ok cs => .ok (c :: cs)

/-- The body of the `try` block after rasterization and OCR: correct
each page, join with `"\n\n"`, validate, and return either the final
text or the missing-fields message; a raised error propagates. -/
def processar_corpo (paginas : List String) : Except String String :=
  match mapCorrigir paginas with
  | .error e => .error e
  | .ok corrigidas =>
      let texto_final := pyJoin "\n\n" corrigidas
      let r := validar_conteudo texto_final
      if r.1 then .ok texto_final
      else .ok ("ERRO: Campos obrigatórios não encontrados (" ++
                pyJoin ", " r.2 ++ ")")

/-- `processar_documento`, with the external rasterizer + OCR front half
abstracted as an oracle: `.error` is a raised rasterization failure
(e.g. `convert_from_path` on a non-PDF byte stream), `.ok paginas` the
per-page recognized texts in PDF page order.  The outer `except` turns
any propagated exception into the `"ERRO CRÍTICO: "` message. -/
def processar_documento (raster : Except String (List String)) : String :=
  match raster with
  | .error e => "ERRO CRÍTICO: " ++ e
  | .ok paginas =>
      match processar_corpo paginas with
      | .ok s => s
      | .error e => "ERRO CRÍTICO: " ++ e

/-- The front end's classification (`main`, line 224):
`resultado.startswith("ERRO")` selects the error branch. -/
def frontend_erro (resultado : String) : Bool :=
  List.isPrefixOf "ERRO".data resultado.data

/-! Spec-side notions used to state the claims. -/

/-- Modelled from the spec: collapse every run of whitespace characters
to a single space — the normalization §4.5 prescribes.  (It is stated
here only to compare texts up to whitespace runs; `validar_conteudo`
itself performs no such normalization.) -/
def collapseWsAux : List Char → List Char
  | [] => []
  | c :: cs =>
      let r := collapseWsAux cs
      if isSpaceB c then
        match r with
        | [] => [' ']
        | d :: r' => if d = ' ' then d :: r' else ' ' :: d :: r'
      else c :: r

def collapseWs (s : String) : String := String.mk (collapseWsAux s.data)

/-- ASCII lowercasing of a whole string. -/
def lowerStr (s : String) : String := String.mk (s.data.map Char.toLower)

/-- `InOrder ps s`: the strings `ps` occur in `s`, pairwise disjoint and
in the given order. -/
inductive InOrder : List (List Char) → List Char → Prop
  | nil (s : List Char) : InOrder [] s
  | cons (p : List Char) (ps : List (List Char)) (pre rest : List Char) :
      InOrder ps rest → InOrder (p :: ps) (pre ++ (p ++ rest))

/-! Helper lemmas. -/

theorem dataAppend (a b : String) : (a ++ b).data = a.data ++ b.data := by
  cases a
  cases b
  rfl

theorem InOrder.shift {ps : List (List Char)} {s : List Char}
    (t : List Char) (h : InOrder ps s) : InOrder ps (t ++ s) := by
  cases h with
  | nil s => exact .nil _
  | cons p ps pre rest h =>
      rw [show t ++ (pre ++ (p ++ rest)) = (t ++ pre) ++ (p ++ rest) by
        rw [List.append_assoc]]
      exact .cons p ps (t ++ pre) rest h

theorem inOrder_pyJoin (sep : String) :
    ∀ l : List String, InOrder (l.map String.data) (pyJoin sep l).data := by
  intro l
  induction l with
  | nil => exact .nil _
  | cons x t ih =>
      cases t with
      | nil =>
          have h := InOrder.cons x.data [] [] [] (.nil [])
          simpa [pyJoin] using h
      | cons y t =>
          have h := InOrder.cons x.data ((y :: t).map String.data) []
            (sep.data ++ (pyJoin sep (y :: t)).data) (InOrder.shift sep.data ih)
          simpa [pyJoin, dataAppend, List.append_assoc] using h

theorem frontend_erro_critico (e : String) :
    frontend_erro ("ERRO CRÍTICO: " ++ e) = true := by
  cases e
  rfl

theorem frontend_erro_campos (s t : String) :
    frontend_erro ("ERRO: Campos obrigatórios não encontrados (" ++ s ++ t)
      = true := by
  cases s
  cases t
  rfl

theorem tentarConfigs_tudo_falha (engine : String → Except String String) :
    ∀ l : List String, (∀ c ∈ l, sucessoOcr (engine c) = false) →
      tentarConfigs engine l = "" := by
  intro l
  induction l with
  | nil => intro _; rfl
  | cons c rest ih =>
      intro h
      have hc := h c (List.mem_cons_self c rest)
      have hrest := ih fun d hd => h d (List.mem_cons_of_mem c hd)
      unfold tentarConfigs
      cases hec : engine c with
      | error e => exact hrest
      | ok t =>
          have ht : temTexto t = false := by simpa [sucessoOcr, hec] using hc
          simp [ht, hrest]

/-! The claims. -/

/-- C1: on a corrected text holding all three required markers the
Validator returns `(allPresent = true, missing = [])`; removing the
document-type phrase, the issuer tax ID, or the total value `750,00`
flips the result to `false` with exactly that field listed; and the
Orchestrator returns the missing-fields failure report — not the
corrected text — whenever validation of the joined corrected text
fails, so a document is reported valid only when every required field
has a matching alternative. -/
theorem c1_validacao_completa :
    (validar_conteudo "NOTA FISCAL DE SERVIÇOS ELETRONICA\nCNPJ: 40.621.411/0001-53\nVALOR TOTAL R$ 750,00"
        = (true, []) ∧
      validar_conteudo "\nCNPJ: 40.621.411/0001-53\nVALOR TOTAL R$ 750,00"
        = (false, ["NFS-e"]) ∧
      validar_conteudo "NOTA FISCAL DE SERVIÇOS ELETRONICA\nCNPJ: \nVALOR TOTAL R$ 750,00"
        = (false, ["CNPJ Prestador"]) ∧
      validar_conteudo "NOTA FISCAL DE SERVIÇOS ELETRONICA\nCNPJ: 40.621.411/0001-53\nVALOR TOTAL R$ "
        = (false, ["Valor Total"])) ∧
    ∀ paginas corrigidas, mapCorrigir paginas = .ok corrigidas →
      (validar_conteudo (pyJoin "\n\n" corrigidas)).1 = false →
      processar_documento (.ok paginas) =
        "ERRO: Campos obrigatórios não encontrados (" ++
          pyJoin ", " (validar_conteudo (pyJoin "\n\n" corrigidas)).2 ++ ")" := by
  refine ⟨⟨rfl, rfl, rfl, rfl⟩, ?_⟩
  intro paginas corrigidas h hv
  simp [processar_documento, processar_corpo, h, hv]

theorem c1_validacao_completa_witness :
    mapCorrigir ["x"] = .ok ["x"] ∧
    (validar_conteudo (pyJoin "\n\n" ["x"])).1 = false ∧
    processar_documento (.ok ["x"]) =
      "ERRO: Campos obrigatórios não encontrados (" ++
        pyJoin ", " (validar_conteudo (pyJoin "\n\n" ["x"])).2 ++ ")" :=
  ⟨rfl, rfl, c1_validacao_completa.2 ["x"] ["x"] rfl rfl⟩

/-- C2: the Text Corrector leaves canonically formatted values
unchanged: `R$ 750,00` (alone and inside a larger text), a grouped
amount `R$ 1.234,56`, the canonical tax ID and the canonical date all
come back identical. -/
theorem c2_idempotencia_correcao :
    corrigir_formatacao "R$ 750,00" = .ok "R$ 750,00" ∧
    corrigir_formatacao "VALOR TOTAL R$ 750,00" = .ok "VALOR TOTAL R$ 750,00" ∧
    corrigir_formatacao "R$ 1.234,56" = .ok "R$ 1.234,56" ∧
    corrigir_formatacao "49.621.411/0001-93" = .ok "49.621.411/0001-93" ∧
    corrigir_formatacao "05/09/2024" = .ok "05/09/2024" :=
  ⟨rfl, rfl, rfl, rfl, rfl⟩

/-- C3 counterexample: the space-separated tax-ID variant is NOT
normalized — the corrector returns it unchanged, which is not the
canonical form the claim requires. -/
theorem c3_contraexemplo :
    corrigir_formatacao "49 621 411 0001 93" = .ok "49 621 411 0001 93" ∧
    "49 621 411 0001 93" ≠ "49.621.411/0001-93" :=
  ⟨rfl, by decide⟩

/-- C3 (amended): the corrector yields exactly `49.621.411/0001-93` for
the bare digit run and for the already-canonical form (dot, slash and
dash separators are each optionally tolerated), but the space-separated
variant `49 621 411 0001 93` is not tolerated and is left unchanged. -/
theorem c3_normalizacao_cnpj :
    corrigir_formatacao "49621411000193" = .ok "49.621.411/0001-93" ∧
    corrigir_formatacao "49.621.411/0001-93" = .ok "49.621.411/0001-93" ∧
    corrigir_formatacao "49 621 411 0001 93" = .ok "49 621 411 0001 93" :=
  ⟨rfl, rfl, rfl⟩

/-- C4: the code at the failing input.  On `R$ 1 234` the currency
match captures `1 234`, whose body `float()` cannot parse; having no
handler, `corrigir_formatacao` propagates the error instead of leaving
the match unmodified, and the document fails with the
`ERRO CRÍTICO` report rather than continuing. -/
theorem c4_correcao_lanca_excecao :
    corrigir_formatacao "R$ 1 234" =
      .error "could not convert string to float: 1 234" ∧
    processar_documento (.ok ["R$ 1 234"]) =
      "ERRO CRÍTICO: could not convert string to float: 1 234" ∧
    frontend_erro (processar_documento (.ok ["R$ 1 234"])) = true :=
  ⟨rfl, rfl, rfl⟩

/-- C5 counterexample: when every profile fails with an engine error
the Adapter returns `""` — exactly the same outcome as when every
profile yields empty text, so no distinct `RecognitionError` is
surfaced. -/
theorem c5_contraexemplo :
    processar_imagem (fun _ => .error "tesseract not found") = "" ∧
    processar_imagem (fun _ => .ok "") = "" :=
  ⟨rfl, rfl⟩

/-- C5 (amended): the Adapter attempts its profiles in order and
returns the first non-empty recognized text; if every profile yields
empty/whitespace-only text OR fails with an engine error it returns
empty text — there is no distinct error outcome. -/
theorem c5_fallback_ordenado :
    (∀ engine : String → Except String String,
      (∀ c ∈ configs_ocr, sucessoOcr (engine c) = false) →
      processar_imagem engine = "") ∧
    (∀ engine : String → Except String String, ∀ t : String,
      engine "--oem 3 --psm 6 -l por+eng" = .ok t → temTexto t = true →
      processar_imagem engine = t) ∧
    (∀ engine : String → Except String String, ∀ t : String,
      sucessoOcr (engine "--oem 3 --psm 6 -l por+eng") = false →
      engine "--oem 3 --psm 11 -l por+eng" = .ok t → temTexto t = true →
      processar_imagem engine = t) := by
  refine ⟨?_, ?_, ?_⟩
  · intro engine hall
    exact tentarConfigs_tudo_falha engine configs_ocr hall
  · intro engine t h ht
    simp [processar_imagem, configs_ocr, tentarConfigs, h, ht]
  · intro engine t h1 h2 ht
    simp only [processar_imagem, configs_ocr, tentarConfigs]
    cases he : engine "--oem 3 --psm 6 -l por+eng" with
    | error e => simp [tentarConfigs, h2, ht]
    | ok u =>
        have hu : temTexto u = false := by simpa [sucessoOcr, he] using h1
        simp [hu, tentarConfigs, h2, ht]

theorem c5_fallback_ordenado_witness :
    sucessoOcr ((fun c => if c = "--oem 3 --psm 6 -l por+eng"
        then Except.error "boom" else Except.ok "TEXTO")
        "--oem 3 --psm 6 -l por+eng") = false ∧
    (fun c => if c = "--oem 3 --psm 6 -l por+eng"
        then Except.error "boom" else Except.ok "TEXTO")
        "--oem 3 --psm 11 -l por+eng" = Except.ok "TEXTO" ∧
    temTexto "TEXTO" = true ∧
    processar_imagem (fun c => if c = "--oem 3 --psm 6 -l por+eng"
        then Except.error "boom" else Except.ok "TEXTO") = "TEXTO" :=
  ⟨rfl, rfl, rfl, c5_fallback_ordenado.2.2 _ "TEXTO" rfl rfl rfl⟩

/-- C6 counterexample: two texts equal up to case and whitespace-run
differences (`NFS e` vs `NFS  e`) on which the Validator disagrees —
so no whitespace-run normalization happens before matching. -/
theorem c6_contraexemplo :
    collapseWs (lowerStr "NFS e\nSUSTENTAMAIS CONSULTORIA\nR$ 750,00") =
      collapseWs (lowerStr "NFS  e\nSUSTENTAMAIS CONSULTORIA\nR$ 750,00") ∧
    validar_conteudo "NFS e\nSUSTENTAMAIS CONSULTORIA\nR$ 750,00"
      = (true, []) ∧
    validar_conteudo "NFS  e\nSUSTENTAMAIS CONSULTORIA\nR$ 750,00"
      = (false, ["NFS-e"]) :=
  ⟨rfl, rfl, rfl⟩

/-- C6 (amended): Validator matching is case-insensitive (all patterns
carry `IGNORECASE`: the all-lowercase text validates exactly like the
uppercase one), but the Validator performs no whitespace normalization:
tolerance to whitespace is only what each pattern encodes (`\s*`
accepts arbitrary runs, so `NOTA    FISCAL` still validates, while
`[\s\-_]?` accepts at most one character, making some whitespace-run
differences change the result). -/
theorem c6_caso_sem_normalizacao :
    validar_conteudo "nota fiscal de serviços eletronica\ncnpj: 40.621.411/0001-53\nvalor total r$ 750,00"
      = validar_conteudo "NOTA FISCAL DE SERVIÇOS ELETRONICA\nCNPJ: 40.621.411/0001-53\nVALOR TOTAL R$ 750,00" ∧
    validar_conteudo "NOTA FISCAL DE SERVIÇOS ELETRONICA\nCNPJ: 40.621.411/0001-53\nVALOR TOTAL R$ 750,00"
      = (true, []) ∧
    validar_conteudo "NOTA    FISCAL DE SERVIÇOS ELETRONICA\nCNPJ: 40.621.411/0001-53\nVALOR TOTAL R$ 750,00"
      = (true, []) :=
  ⟨rfl, rfl, rfl⟩

/-- C7: a rasterization failure (e.g. a non-PDF byte stream) makes the
Orchestrator return the fatal `ERRO CRÍTICO` failure report carrying
the error — classified as an error by the front end, never a success
result; the rasterizer is invoked once, with no retry. -/
theorem c7_rasterizacao_fatal (e : String) :
    processar_documento (.error e) = "ERRO CRÍTICO: " ++ e ∧
    frontend_erro (processar_documento (.error e)) = true :=
  ⟨rfl, frontend_erro_critico e⟩

theorem c7_rasterizacao_fatal_witness :
    processar_documento (.error "Unable to get page count") =
      "ERRO CRÍTICO: " ++ "Unable to get page count" ∧
    frontend_erro (processar_documento
      (.error "Unable to get page count")) = true :=
  c7_rasterizacao_fatal "Unable to get page count"

/-- C8: the per-page corrected texts occur in the joined document text
in PDF page order, and when validation passes that joined text is
exactly what the Orchestrator returns. -/
theorem c8_ordem_paginas (paginas corrigidas : List String)
    (h : mapCorrigir paginas = .ok corrigidas) :
    InOrder (corrigidas.map String.data) (pyJoin "\n\n" corrigidas).data ∧
    ((validar_conteudo (pyJoin "\n\n" corrigidas)).1 = true →
      processar_documento (.ok paginas) = pyJoin "\n\n" corrigidas) := by
  refine ⟨inOrder_pyJoin _ _, fun hv => ?_⟩
  simp [processar_documento, processar_corpo, h, hv]

theorem c8_ordem_paginas_witness :
    mapCorrigir ["PAGE1", "PAGE2", "PAGE3"] =
      .ok ["PAGE1", "PAGE2", "PAGE3"] ∧
    InOrder (["PAGE1", "PAGE2", "PAGE3"].map String.data)
      (pyJoin "\n\n" ["PAGE1", "PAGE2", "PAGE3"]).data :=
  ⟨rfl, (c8_ordem_paginas ["PAGE1", "PAGE2", "PAGE3"]
    ["PAGE1", "PAGE2", "PAGE3"] rfl).1⟩

/-- C9: dates using `-`, `\` or space separators all normalize to
`05/09/2024`, and the canonical form is preserved. -/
theorem c9_normalizacao_datas :
    corrigir_formatacao "05-09-2024" = .ok "05/09/2024" ∧
    corrigir_formatacao "05\\09\\2024" = .ok "05/09/2024" ∧
    corrigir_formatacao "05 09 2024" = .ok "05/09/2024" ∧
    corrigir_formatacao "05/09/2024" = .ok "05/09/2024" :=
  ⟨rfl, rfl, rfl, rfl⟩

/-- C10: the Orchestrator signals failure only through the `"ERRO"`
prefix of its returned string: every raised error becomes the
`ERRO CRÍTICO` message, every run returns either the joined corrected
text of a validation-passing document or a string the front end
classifies as an error; consequently a document whose corrected text
passes validation but itself begins with `"ERRO"` is returned as a
success yet displayed by the front end as an error. -/
theorem c10_sinalizacao_por_prefixo :
    (∀ e : String,
      processar_documento (.error e) = "ERRO CRÍTICO: " ++ e ∧
      frontend_erro ("ERRO CRÍTICO: " ++ e) = true) ∧
    (∀ paginas e, mapCorrigir paginas = .error e →
      processar_documento (.ok paginas) = "ERRO CRÍTICO: " ++ e) ∧
    (∀ paginas corrigidas, mapCorrigir paginas = .ok corrigidas →
      (processar_documento (.ok paginas) = pyJoin "\n\n" corrigidas ∧
        (validar_conteudo (pyJoin "\n\n" corrigidas)).1 = true) ∨
      frontend_erro (processar_documento (.ok paginas)) = true) ∧
    (processar_documento
        (.ok ["ERRO NOTA FISCAL\nSUSTENTAMAIS CONSULTORIA\nVALOR TOTAL R$ 750,00"]) =
      "ERRO NOTA FISCAL\nSUSTENTAMAIS CONSULTORIA\nVALOR TOTAL R$ 750,00" ∧
      (validar_conteudo
        "ERRO NOTA FISCAL\nSUSTENTAMAIS CONSULTORIA\nVALOR TOTAL R$ 750,00").1
        = true ∧
      frontend_erro
        "ERRO NOTA FISCAL\nSUSTENTAMAIS CONSULTORIA\nVALOR TOTAL R$ 750,00"
        = true) := by
  refine ⟨fun e => ⟨rfl, frontend_erro_critico e⟩, ?_, ?_, rfl, rfl, rfl⟩
  · intro paginas e h
    simp [processar_documento, processar_corpo, h]
  · intro paginas corrigidas h
    cases hv : (validar_conteudo (pyJoin "\n\n" corrigidas)).1 with
    | true =>
        left
        refine ⟨?_, rfl⟩
        simp [processar_documento, processar_corpo, h, hv]
    | false =>
        right
        have hres : processar_documento (.ok paginas) =
            "ERRO: Campos obrigatórios não encontrados (" ++
              pyJoin ", " (validar_conteudo (pyJoin "\n\n" corrigidas)).2 ++
              ")" := by
          simp [processar_documento, processar_corpo, h, hv]
        rw [hres]
        exact frontend_erro_campos _ _

theorem c10_sinalizacao_por_prefixo_witness :
    mapCorrigir ["ERRO NOTA FISCAL\nSUSTENTAMAIS CONSULTORIA\nVALOR TOTAL R$ 750,00"] =
      .ok ["ERRO NOTA FISCAL\nSUSTENTAMAIS CONSULTORIA\nVALOR TOTAL R$ 750,00"] ∧
    ((processar_documento
        (.ok ["ERRO NOTA FISCAL\nSUSTENTAMAIS CONSULTORIA\nVALOR TOTAL R$ 750,00"]) =
      pyJoin "\n\n"
        ["ERRO NOTA FISCAL\nSUSTENTAMAIS CONSULTORIA\nVALOR TOTAL R$ 750,00"] ∧
      (validar_conteudo (pyJoin "\n\n"
        ["ERRO NOTA FISCAL\nSUSTENTAMAIS CONSULTORIA\nVALOR TOTAL R$ 750,00"])).1
        = true) ∨
      frontend_erro (processar_documento
        (.ok ["ERRO NOTA FISCAL\nSUSTENTAMAIS CONSULTORIA\nVALOR TOTAL R$ 750,00"]))
        = true) :=
  ⟨rfl, c10_sinalizacao_por_prefixo.2.2.1
    ["ERRO NOTA FISCAL\nSUSTENTAMAIS CONSULTORIA\nVALOR TOTAL R$ 750,00"]
    ["ERRO NOTA FISCAL\nSUSTENTAMAIS CONSULTORIA\nVALOR TOTAL R$ 750,00"] rfl⟩

end NfseOcr
